import Mathlib

/-!
Shallow embedding of the anemo_sample repository: the Anemo-backed network
service (`src/crates/network-service/src/anemo_impl.rs`) and the time-sync
module (`src/crates/timesync-module/src/timesync_service.rs`).

Modelling conventions:
* The async/lock structure collapses to sequential state passing: each
  operation is a function from the service state (plus environment inputs)
  to the new state and its `Except` result, mirroring the Rust method body
  executed under its lock acquisitions in program order.
* Clock reads (`SystemTime::now` / `Instant` elapsed) are explicit `Int` / `Nat`
  parameters, one per read in the Rust body, in the order the body performs them.
* Transport RPC outcomes are oracles (`Bool`-valued parameters/functions):
  `true` means the underlying `network.rpc` call returned `Ok`.
* `HashMap` becomes an association list; `insert` replaces the entry with the
  matching key in place (or appends a new one), `remove` drops it, matching
  `std::collections::HashMap` semantics up to iteration order.
* Rust `u64`/`usize` become `Nat` and `i64` becomes `Int`; every quantity the
  claims touch stays far below the 64-bit overflow boundary, so no wrap-around
  modelling is needed.
* `f64` (only `avg_response_time_ms`) becomes `ℚ`. Note one divergence kept in
  mind below: `x / 0` is `0` in `ℚ` while Rust `f64` yields `NaN`/`±inf`; no
  theorem in this file depends on the value of a division by zero.
-/

deriving instance DecidableEq for Except

namespace AnemoSample

/-- NodeId is `pub type NodeId = String`. -/
abbrev NodeId := String

/-- PeerId is an opaque transport identity (`anemo::PeerId`); modelled as `Nat`. -/
abbrev PeerId := Nat

/-- Uuid (`MessageId` and request ids) modelled as an opaque `Nat`. -/
abbrev Uuid := Nat

/-- Association-list lookup, mirroring `HashMap::get`. -/
def mapLookup {α : Type} {β : Type} [DecidableEq α] (k : α) : List (α × β) → Option β
  | [] => none
  | p :: rest => if p.1 = k then some p.2 else mapLookup k rest

/-- Association-list insert-or-replace, mirroring `HashMap::insert` /
`entry(k).or_insert(v)` followed by mutation: the entry with key `k` is
replaced in place, or appended when absent. -/
def mapInsert {α : Type} {β : Type} [DecidableEq α] (k : α) (v : β) : List (α × β) → List (α × β)
  | [] => [(k, v)]
  | p :: rest => if p.1 = k then (k, v) :: rest else p :: mapInsert k v rest

/-- Association-list removal, mirroring `HashMap::remove`. -/
def mapRemove {α : Type} {β : Type} [DecidableEq α] (k : α) : List (α × β) → List (α × β)
  | [] => []
  | p :: rest => if p.1 = k then rest else p :: mapRemove k rest

/-- Number of entries stored under key `k` (1 for a well-formed map that
contains `k`, 0 when absent). -/
def keyCount {α : Type} {β : Type} [DecidableEq α] (k : α) (m : List (α × β)) : Nat :=
  m.countP (fun p => decide (p.1 = k))

/-- Errors of the network-service crate (`network-service/src/error.rs`),
with message payloads modelled as strings. -/
inductive NetworkError where
  | ConfigError (msg : String)
  | ConnectionError (msg : String)
  | SendError (msg : String)
  | ReceiveError (msg : String)
  | SerializationError (msg : String)
  | TimeoutError
  | NodeNotFound (node : String)
  | InternalError (msg : String)
  | Other (msg : String)
deriving DecidableEq

/-- Wire envelope (`network-service/src/message.rs`): `payload` is opaque to the
service layer and modelled as its serialized form. -/
structure NetworkMessage where
  id : Uuid
  message_type : String
  sender : NodeId
  payload : String
  timestamp : Int
  metadata : List (String × String)
deriving DecidableEq

/-- State of an `AnemoNetworkService` instance together with the process-wide
`GLOBAL_NODES` registry it reads and writes (`anemo_impl.rs`). `network` is
`some peer_id` exactly when the `Network` instance exists. -/
structure AnemoState where
  global_nodes : List (NodeId × PeerId)
  is_running : Bool
  local_node_id : Option NodeId
  network : Option PeerId
deriving DecidableEq

/-- Fresh service (`AnemoNetworkService::new`) over an empty global registry. -/
def newAnemoState : AnemoState :=
  { global_nodes := [], is_running := false, local_node_id := none, network := none }

/-- Embedding of `AnemoNetworkService::start`. `bindResult` is the outcome of
`Network::bind(...).start(router)`: `some (peer_id, local_addr)` on success,
`none` on a bind failure. Returns the new state and the call result; an error
leaves the state exactly as it was. -/
def start (bindResult : Option (PeerId × String)) (server_name : String)
    (s : AnemoState) : AnemoState × Except NetworkError Unit :=
  if s.is_running then (s, Except.error (NetworkError.ConfigError "服务已启动"))
  else
    match bindResult with
    | none => (s, Except.error (NetworkError.ConnectionError "启动网络失败"))
    | some (pid, addr) =>
      let local_id := server_name ++ ":" ++ addr
      ({ global_nodes := mapInsert local_id pid s.global_nodes,
         is_running := true,
         local_node_id := some local_id,
         network := some pid }, Except.ok ())

/-- Embedding of `AnemoNetworkService::stop`: a no-op returning `Ok(())` when
not running, otherwise removes the local entry from the global registry and
clears the local state. -/
def stop (s : AnemoState) : AnemoState × Except NetworkError Unit :=
  if s.is_running = false then (s, Except.ok ())
  else
    let g :=
      match s.local_node_id with
      | some lid => mapRemove lid s.global_nodes
      | none => s.global_nodes
    ({ global_nodes := g, is_running := false, local_node_id := none, network := none },
      Except.ok ())

/-- The skip condition of the broadcast loop body: an entry is skipped when its
node id is in `exclude_nodes` or equals the local node id. -/
def broadcastSkips (localId : Option NodeId) (exclude_nodes : List NodeId) (nid : NodeId) : Bool :=
  decide (nid ∈ exclude_nodes) ||
    (match localId with
     | some l => decide (nid = l)
     | none => false)

/-- Registry entries the broadcast loop issues an RPC for: the full snapshot
minus the skipped ones. -/
def broadcastTargets (nodes : List (NodeId × PeerId)) (localId : Option NodeId)
    (exclude_nodes : List NodeId) : List (NodeId × PeerId) :=
  nodes.filter (fun p => !broadcastSkips localId exclude_nodes p.1)

/-- Observable outcome of a broadcast: the returned value, the node ids an
outbound RPC was attempted for (in registry order), and the success counter
`sent_count`. -/
structure BroadcastOutcome where
  result : Except NetworkError Uuid
  attempted : List NodeId
  sent_count : Nat
deriving DecidableEq

/-- Embedding of `AnemoNetworkService::broadcast`. `rpcOk node` is the oracle
for the per-peer `network.rpc` outcome; per-peer failures are only logged.
Serialization of the envelope is total in the model (`serde_json::to_vec` of
the plain-data envelope cannot fail). The state is read, never written. -/
def broadcast (rpcOk : NodeId → Bool) (message : NetworkMessage)
    (exclude_nodes : List NodeId) (s : AnemoState) : BroadcastOutcome :=
  if s.is_running = false then
    { result := Except.error (NetworkError.ConfigError "服务未启动"),
      attempted := [], sent_count := 0 }
  else
    match s.network with
    | none => { result := Except.ok message.id, attempted := [], sent_count := 0 }
    | some _ =>
      let targets := broadcastTargets s.global_nodes s.local_node_id exclude_nodes
      { result := Except.ok message.id,
        attempted := targets.map Prod.fst,
        sent_count := (targets.filter (fun p => rpcOk p.1)).length }

/-- Embedding of `AnemoNetworkService::node_id_to_peer_id`: a lookup in the
global registry, failing with `NodeNotFound` when absent. (The `try_read`
cannot fail in the sequential model.) -/
def node_id_to_peer_id (global_nodes : List (NodeId × PeerId)) (node_id : NodeId) :
    Except NetworkError PeerId :=
  match mapLookup node_id global_nodes with
  | some pid => Except.ok pid
  | none => Except.error (NetworkError.NodeNotFound node_id)

/-- Observable outcome of a unicast: the returned value and how many transport
calls were issued. -/
structure UnicastOutcome where
  result : Except NetworkError Uuid
  calls_made : Nat
deriving DecidableEq

/-- Embedding of `AnemoNetworkService::unicast`. `rpcOk pid` is the transport
oracle for the single `network.rpc` call. The state is read, never written. -/
def unicast (rpcOk : PeerId → Bool) (target : NodeId) (message : NetworkMessage)
    (s : AnemoState) : UnicastOutcome :=
  if s.is_running = false then
    { result := Except.error (NetworkError.ConfigError "服务未启动"), calls_made := 0 }
  else
    match node_id_to_peer_id s.global_nodes target with
    | Except.error e => { result := Except.error e, calls_made := 0 }
    | Except.ok pid =>
      match s.network with
      | none =>
        { result := Except.error (NetworkError.ConfigError "网络服务未启动"), calls_made := 0 }
      | some _ =>
        if rpcOk pid then { result := Except.ok message.id, calls_made := 1 }
        else { result := Except.error (NetworkError.SendError "RPC调用失败"), calls_made := 1 }

/-- Errors of the timesync module (`timesync-module/src/error.rs`). -/
inductive TimeSyncError where
  | NetworkError (e : AnemoSample.NetworkError)
  | RequestTimeout
  | InvalidTimestamp (ts : Int)
  | SyncFailed (msg : String)
  | HeartbeatNotStarted
  | HeartbeatAlreadyStarted
  | InvalidSyncInterval (ms : Nat)
  | TimeOffsetTooLarge (ms : Int)
  | SerializationError (msg : String)
  | SystemTimeError (msg : String)
  | InternalError (msg : String)
  | Other (msg : String)
deriving DecidableEq

/-- Aggregate statistics (`SyncStats`); `avg_response_time_ms` is `f64` in Rust,
modelled as `ℚ`. -/
structure SyncStats where
  total_requests : Nat
  total_responses : Nat
  avg_response_time_ms : ℚ
  last_sync_time : Option Int
  active_sessions : Nat
  heartbeat_count : Nat
deriving DecidableEq

/-- Transient per-request record (`TimeRequest`); `server_receive_time` is an
`Instant`, modelled as an opaque tick. -/
structure TimeRequest where
  request_id : Uuid
  from_node : NodeId
  client_timestamp : Int
  server_receive_time : Nat
deriving DecidableEq

/-- Per-peer sync session (`SyncSession`). -/
structure SyncSession where
  node_id : NodeId
  last_sync_time : Int
  time_offset_ms : Int
  sync_interval_ms : Nat
  request_count : Nat
deriving DecidableEq

/-- State of a `TimeSyncService` instance. `heartbeat_handle` is `some taskId`
exactly when a heartbeat `JoinHandle` is stored. -/
structure TimeSyncState where
  pending_requests : List (Uuid × TimeRequest)
  sync_sessions : List (NodeId × SyncSession)
  stats : SyncStats
  heartbeat_handle : Option Nat
  heartbeat_sequence : Nat
  server_id : String
deriving DecidableEq

/-- Fresh service state (`TimeSyncService::new`). -/
def initialTimeSyncState (server_id : String) : TimeSyncState :=
  { pending_requests := []
    sync_sessions := []
    stats :=
      { total_requests := 0
        total_responses := 0
        avg_response_time_ms := 0
        last_sync_time := none
        active_sessions := 0
        heartbeat_count := 0 }
    heartbeat_handle := none
    heartbeat_sequence := 0
    server_id := server_id }

/-- Embedding of `TimeSyncService::calculate_time_diff_ms`. -/
def calculate_time_diff_ms (time1 time2 : Int) : Int :=
  time1 - time2

/-- Embedding of `TimeSyncService::validate_timestamp`; `now` is the clock read
`get_current_timestamp_ms()` the function performs. Rejects when the absolute
difference strictly exceeds 3 600 000 ms. -/
def validate_timestamp (now ts : Int) : Except TimeSyncError Unit :=
  if 3600000 < (now - ts).natAbs then Except.error (TimeSyncError.InvalidTimestamp ts)
  else Except.ok ()

/-- Embedding of `TimeSyncService::update_stats`; `now` is its clock read and
`sessionsLen` the current `sync_sessions.len()`. Note: `request_processed = true`
increments `total_requests`, the `else` branch increments `total_responses`, and
the running-average formula divides by the (not further incremented)
`total_responses`. -/
def update_stats (now : Int) (sessionsLen : Nat) (request_processed : Bool)
    (response_time_ms : Option ℚ) (stats : SyncStats) : SyncStats :=
  let stats1 :=
    if request_processed then { stats with total_requests := stats.total_requests + 1 }
    else { stats with total_responses := stats.total_responses + 1 }
  let stats2 :=
    match response_time_ms with
    | some response_time =>
      let total_count : ℚ := stats1.total_responses
      { stats1 with
        avg_response_time_ms :=
          (stats1.avg_response_time_ms * (total_count - 1) + response_time) / total_count }
    | none => stats1
  { stats2 with last_sync_time := some now, active_sessions := sessionsLen }

/-- Payload of a `TimeSyncMessageType::TimeResponse` as sent by
`send_time_response`. -/
structure TimeResponseMsg where
  request_id : Uuid
  server_timestamp : Int
  client_timestamp : Int
  processing_time_ns : Nat
deriving DecidableEq

/-- Payload of a `TimeSyncMessageType::SyncResponse` as sent by
`send_sync_response`. -/
structure SyncResponseMsg where
  request_id : Uuid
  server_time : Int
  client_time : Int
  time_offset_ms : Int
  round_trip_time_ms : Nat
deriving DecidableEq

/-- Embedding of `TimeSyncService::handle_time_request`. Clock reads in body
order: `nowValidate` (inside `validate_timestamp`), `nowSend` (inside
`send_time_response`), `nowStats` (inside `update_stats`). `recvTick` is the
`Instant::now()` receipt time, `elapsed_ns` its elapsed reading, and `sendOk`
the oracle for the unicast carrying the response (a `false` propagates the
send error through `?`, skipping the cleanup and the stats update). -/
def handle_time_request (nowValidate nowSend nowStats : Int) (recvTick elapsed_ns : Nat)
    (sendOk : Bool) (frm : NodeId) (request_id : Uuid) (client_timestamp : Int)
    (s : TimeSyncState) : TimeSyncState × Except TimeSyncError (List TimeResponseMsg) :=
  match validate_timestamp nowValidate client_timestamp with
  | Except.error e => (s, Except.error e)
  | Except.ok _ =>
    let s1 :=
      { s with
        pending_requests :=
          mapInsert request_id
            { request_id := request_id
              from_node := frm
              client_timestamp := client_timestamp
              server_receive_time := recvTick } s.pending_requests }
    let msg : TimeResponseMsg :=
      { request_id := request_id
        server_timestamp := nowSend
        client_timestamp := client_timestamp
        processing_time_ns := elapsed_ns }
    if sendOk then
      let s2 := { s1 with pending_requests := mapRemove request_id s1.pending_requests }
      let s3 :=
        { s2 with stats := update_stats nowStats s2.sync_sessions.length true none s2.stats }
      (s3, Except.ok [msg])
    else
      (s1, Except.error (TimeSyncError.NetworkError (NetworkError.SendError "RPC调用失败")))

/-- Embedding of `TimeSyncService::handle_sync_request`. Clock reads in body
order: `nowValidate` (inside `validate_timestamp`), `nowServer` (the
`server_time` used for the offset and the session), `nowResp` (inside
`send_sync_response`), `nowStats` (inside `update_stats`). `sendOk` is the
oracle for the unicast carrying the response: on `false` the session upsert
has already happened but the stats update is skipped (error propagates via
`?`). -/
def handle_sync_request (nowValidate nowServer nowResp nowStats : Int) (sendOk : Bool)
    (frm : NodeId) (request_id : Uuid) (client_time : Int) (sync_interval_ms : Nat)
    (s : TimeSyncState) : TimeSyncState × Except TimeSyncError (List SyncResponseMsg) :=
  match validate_timestamp nowValidate client_time with
  | Except.error e => (s, Except.error e)
  | Except.ok _ =>
    if sync_interval_ms < 1000 ∨ 3600000 < sync_interval_ms then
      (s, Except.error (TimeSyncError.InvalidSyncInterval sync_interval_ms))
    else
      let server_time := nowServer
      let time_offset_ms := calculate_time_diff_ms server_time client_time
      let prev :=
        match mapLookup frm s.sync_sessions with
        | some sess => sess
        | none =>
          { node_id := frm
            last_sync_time := server_time
            time_offset_ms := time_offset_ms
            sync_interval_ms := sync_interval_ms
            request_count := 0 }
      let sess :=
        { prev with
          last_sync_time := server_time
          time_offset_ms := time_offset_ms
          sync_interval_ms := sync_interval_ms
          request_count := prev.request_count + 1 }
      let s1 := { s with sync_sessions := mapInsert frm sess s.sync_sessions }
      let round_trip_time_ms : Nat := 10
      let msg : SyncResponseMsg :=
        { request_id := request_id
          server_time := nowResp
          client_time := client_time
          time_offset_ms := time_offset_ms
          round_trip_time_ms := round_trip_time_ms }
      if sendOk then
        let s2 :=
          { s1 with
            stats :=
              update_stats nowStats s1.sync_sessions.length true
                (some (round_trip_time_ms : ℚ)) s1.stats }
        (s2, Except.ok [msg])
      else
        (s1, Except.error (TimeSyncError.NetworkError (NetworkError.SendError "RPC调用失败")))

/-- Embedding of `TimeSyncService::start_heartbeat`: fails when a handle is
already stored, otherwise spawns a task (opaque id `newTask`) ticking every
`interval_ms` and stores its handle. The spawned loop body is modelled by
`heartbeat_tick`; `interval_ms` only configures the timer. -/
def start_heartbeat (newTask _interval_ms : Nat) (s : TimeSyncState) :
    TimeSyncState × Except TimeSyncError Unit :=
  match s.heartbeat_handle with
  | some _ => (s, Except.error TimeSyncError.HeartbeatAlreadyStarted)
  | none => ({ s with heartbeat_handle := some newTask }, Except.ok ())

/-- Heartbeat message payload (`TimeSyncMessageType::Heartbeat`). -/
structure HeartbeatMsg where
  timestamp : Int
  sequence : Nat
deriving DecidableEq

/-- One iteration of the heartbeat task body spawned by `start_heartbeat`:
increments the shared sequence counter, broadcasts `{timestamp, sequence}`, and
bumps `heartbeat_count` only when the broadcast succeeded (`broadcastOk`). -/
def heartbeat_tick (now : Int) (broadcastOk : Bool) (s : TimeSyncState) :
    TimeSyncState × HeartbeatMsg :=
  let seq := s.heartbeat_sequence + 1
  let s1 := { s with heartbeat_sequence := seq }
  let msg : HeartbeatMsg := { timestamp := now, sequence := seq }
  if broadcastOk then
    ({ s1 with stats := { s1.stats with heartbeat_count := s1.stats.heartbeat_count + 1 } }, msg)
  else (s1, msg)

/-- Embedding of `TimeSyncService::stop_heartbeat`: takes and aborts the stored
handle, failing with `HeartbeatNotStarted` when none is stored. -/
def stop_heartbeat (s : TimeSyncState) : TimeSyncState × Except TimeSyncError Unit :=
  match s.heartbeat_handle with
  | some _ => ({ s with heartbeat_handle := none }, Except.ok ())
  | none => (s, Except.error TimeSyncError.HeartbeatNotStarted)

/-- Concrete envelope used for closed-form evaluations. -/
def sampleMsg : NetworkMessage :=
  { id := 42, message_type := "timesync", sender := "srv:1", payload := "p",
    timestamp := 0, metadata := [] }

/-- Concrete running service state: the local node `srv:1` plus one peer
`peer-b` in the global registry. -/
def runningState : AnemoState :=
  { global_nodes := [("srv:1", 0), ("peer-b", 1)],
    is_running := true,
    local_node_id := some "srv:1",
    network := some 0 }

/- Helper lemmas about the association-list map operations. -/

theorem mapLookup_mapInsert_self {α β : Type} [DecidableEq α] (k : α) (v : β)
    (m : List (α × β)) : mapLookup k (mapInsert k v m) = some v := by
  induction m with
  | nil => simp [mapInsert, mapLookup]
  | cons p rest ih =>
    by_cases h : p.1 = k
    · simp [mapInsert, mapLookup, h]
    · simp [mapInsert, mapLookup, h, ih]

theorem mapRemove_mapInsert_of_none {α β : Type} [DecidableEq α] (k : α) (v : β)
    (m : List (α × β)) (h : mapLookup k m = none) :
    mapRemove k (mapInsert k v m) = m := by
  induction m with
  | nil => simp [mapInsert, mapRemove]
  | cons p rest ih =>
    by_cases hp : p.1 = k
    · simp [mapLookup, hp] at h
    · simp [mapLookup, hp] at h
      simp [mapInsert, mapRemove, hp, ih h]

theorem keyCount_eq_zero_of_lookup_none {α β : Type} [DecidableEq α] (k : α)
    (m : List (α × β)) (h : mapLookup k m = none) : keyCount k m = 0 := by
  induction m with
  | nil => simp [keyCount]
  | cons p rest ih =>
    by_cases hp : p.1 = k
    · simp [mapLookup, hp] at h
    · simp [mapLookup, hp] at h
      simpa [keyCount, List.countP_cons, hp] using ih h

theorem keyCount_mapInsert_of_none {α β : Type} [DecidableEq α] (k : α) (v : β)
    (m : List (α × β)) (h : mapLookup k m = none) :
    keyCount k (mapInsert k v m) = 1 := by
  induction m with
  | nil => simp [mapInsert, keyCount, List.countP_cons]
  | cons p rest ih =>
    by_cases hp : p.1 = k
    · simp [mapLookup, hp] at h
    · simp [mapLookup, hp] at h
      simpa [mapInsert, keyCount, List.countP_cons, hp] using ih h

theorem keyCount_mapInsert_of_some {α β : Type} [DecidableEq α] (k : α) (v w : β)
    (m : List (α × β)) (h : mapLookup k m = some w) :
    keyCount k (mapInsert k v m) = keyCount k m := by
  induction m with
  | nil => simp [mapLookup] at h
  | cons p rest ih =>
    by_cases hp : p.1 = k
    · simp [mapInsert, keyCount, List.countP_cons, hp]
    · simp [mapLookup, hp] at h
      simpa [mapInsert, keyCount, List.countP_cons, hp] using ih h

theorem length_filter_add_length_filter_not {α : Type} (p : α → Bool) (l : List α) :
    (l.filter p).length + (l.filter (fun a => !(p a))).length = l.length := by
  induction l with
  | nil => simp
  | cons a rest ih =>
    cases h : p a <;> simp [List.filter_cons, h] <;> omega

theorem length_filter_mem_of_nodup {α β : Type} [DecidableEq α]
    (nodes : List (α × β)) (w : List α)
    (hn : (nodes.map Prod.fst).Nodup) (hw : w.Nodup)
    (hsub : ∀ x ∈ w, x ∈ nodes.map Prod.fst) :
    (nodes.filter (fun p => decide (p.1 ∈ w))).length = w.length := by
  induction nodes generalizing w with
  | nil =>
    have hwnil : w = [] := by
      cases w with
      | nil => rfl
      | cons a t => exact absurd (hsub a (List.mem_cons_self a t)) (by simp)
    subst hwnil
    simp
  | cons nd rest ih =>
    have hn1 : nd.1 ∉ rest.map Prod.fst := (List.nodup_cons.mp hn).1
    have hn2 : (rest.map Prod.fst).Nodup := (List.nodup_cons.mp hn).2
    by_cases hmem : nd.1 ∈ w
    · have hcongr :
          rest.filter (fun p => decide (p.1 ∈ w))
            = rest.filter (fun p => decide (p.1 ∈ w.erase nd.1)) := by
        apply List.filter_congr
        intro p hp
        have hne : p.1 ≠ nd.1 := by
          intro hcontra
          exact hn1 (hcontra ▸ List.mem_map_of_mem Prod.fst hp)
        simp [List.mem_erase_of_ne hne]
      have hsub2 : ∀ x ∈ w.erase nd.1, x ∈ rest.map Prod.fst := by
        intro x hx
        have hxw := (hw.mem_erase_iff.mp hx)
        have := hsub x hxw.2
        simp only [List.map_cons, List.mem_cons] at this
        exact this.resolve_left hxw.1
      have ihh := ih (w.erase nd.1) hn2 (hw.erase nd.1) hsub2
      have hlen : (w.erase nd.1).length = w.length - 1 := List.length_erase_of_mem hmem
      have hpos : 0 < w.length := List.length_pos_of_mem hmem
      have hhead : decide (nd.1 ∈ w) = true := by simpa using hmem
      rw [List.filter_cons, hcongr, if_pos hhead, List.length_cons, ihh, hlen]
      omega
    · have hsub2 : ∀ x ∈ w, x ∈ rest.map Prod.fst := by
        intro x hx
        have hne : x ≠ nd.1 := by
          intro hcontra
          exact hmem (hcontra ▸ hx)
        have := hsub x hx
        simp only [List.map_cons, List.mem_cons] at this
        exact this.resolve_left hne
      have hhead : ¬(decide (nd.1 ∈ w) = true) := by simpa using hmem
      rw [List.filter_cons, if_neg hhead]
      exact ih w hn2 hw hsub2

theorem broadcastSkips_some_eq (l : NodeId) (exclude_nodes : List NodeId) (nid : NodeId) :
    broadcastSkips (some l) exclude_nodes nid = decide (nid ∈ l :: exclude_nodes) := by
  by_cases h1 : nid ∈ exclude_nodes <;> by_cases h2 : nid = l <;>
    simp [broadcastSkips, h1, h2]

/-- C3: calling `start` while the service is already `Running` fails with a
configuration error and leaves the state unchanged, and calling `stop` while
the service is `Stopped` returns success without modifying any state. -/
theorem start_twice_fails_stop_idempotent (bindResult : Option (PeerId × String))
    (server_name : String) (s : AnemoState) :
    (s.is_running = true →
      start bindResult server_name s
        = (s, Except.error (NetworkError.ConfigError "服务已启动")))
    ∧ (s.is_running = false → stop s = (s, Except.ok ())) := by
  constructor
  · intro h
    simp [start, h]
  · intro h
    simp [stop, h]

/-- Witness for C3 on a concrete running state and the concrete fresh state. -/
theorem start_twice_fails_stop_idempotent_witness :
    start none "srv" runningState
      = (runningState, Except.error (NetworkError.ConfigError "服务已启动"))
    ∧ stop newAnemoState = (newAnemoState, Except.ok ()) :=
  ⟨(start_twice_fails_stop_idempotent none "srv" runningState).1 rfl,
   (start_twice_fails_stop_idempotent none "srv" newAnemoState).2 rfl⟩

/-- C7: `start_heartbeat` with a stored handle fails with `HeartbeatAlreadyStarted`
leaving the state (including the stored handle) unchanged; `stop_heartbeat` with
no stored handle fails with `HeartbeatNotStarted` leaving the state unchanged;
`stop_heartbeat` on a running heartbeat clears the stored handle, after which
`start_heartbeat` succeeds again. -/
theorem heartbeat_start_stop_errors (newTask interval_ms : Nat) (s : TimeSyncState) :
    (∀ h0, s.heartbeat_handle = some h0 →
      start_heartbeat newTask interval_ms s
        = (s, Except.error TimeSyncError.HeartbeatAlreadyStarted))
    ∧ (s.heartbeat_handle = none →
      stop_heartbeat s = (s, Except.error TimeSyncError.HeartbeatNotStarted))
    ∧ (∀ h0, s.heartbeat_handle = some h0 →
      stop_heartbeat s = ({ s with heartbeat_handle := none }, Except.ok ())
      ∧ (start_heartbeat newTask interval_ms (stop_heartbeat s).1).2 = Except.ok ()) := by
  refine ⟨?_, ?_, ?_⟩
  · intro h0 hh
    simp [start_heartbeat, hh]
  · intro hh
    simp [stop_heartbeat, hh]
  · intro h0 hh
    constructor <;> simp [stop_heartbeat, start_heartbeat, hh]

/-- Witness for C7 on a concrete state with a stored handle and the fresh state. -/
theorem heartbeat_start_stop_errors_witness :
    start_heartbeat 7 1000 { initialTimeSyncState "srv" with heartbeat_handle := some 3 }
      = ({ initialTimeSyncState "srv" with heartbeat_handle := some 3 },
          Except.error TimeSyncError.HeartbeatAlreadyStarted)
    ∧ stop_heartbeat (initialTimeSyncState "srv")
      = (initialTimeSyncState "srv", Except.error TimeSyncError.HeartbeatNotStarted)
    ∧ (start_heartbeat 7 1000
        (stop_heartbeat { initialTimeSyncState "srv" with heartbeat_handle := some 3 }).1).2
      = Except.ok () :=
  ⟨(heartbeat_start_stop_errors 7 1000 _).1 3 rfl,
   (heartbeat_start_stop_errors 7 1000 (initialTimeSyncState "srv")).2.1 rfl,
   ((heartbeat_start_stop_errors 7 1000 _).2.2 3 rfl).2⟩

/-- C10: `stop_heartbeat` on a running heartbeat modifies only the stored
handle: pending requests, sessions, stats, the sequence counter and the server
id are unchanged; and after a subsequent `start_heartbeat` the first heartbeat
tick broadcasts sequence `previous + 1`, not `1`. -/
theorem stop_heartbeat_only_clears_handle (newTask interval_ms : Nat) (now : Int)
    (broadcastOk : Bool) (s : TimeSyncState) (h0 : Nat)
    (hh : s.heartbeat_handle = some h0) :
    (stop_heartbeat s).1.pending_requests = s.pending_requests
    ∧ (stop_heartbeat s).1.sync_sessions = s.sync_sessions
    ∧ (stop_heartbeat s).1.stats = s.stats
    ∧ (stop_heartbeat s).1.heartbeat_sequence = s.heartbeat_sequence
    ∧ (stop_heartbeat s).1.server_id = s.server_id
    ∧ (stop_heartbeat s).1.heartbeat_handle = none
    ∧ (heartbeat_tick now broadcastOk
        (start_heartbeat newTask interval_ms (stop_heartbeat s).1).1).2.sequence
      = s.heartbeat_sequence + 1 := by
  cases broadcastOk <;>
    simp [stop_heartbeat, start_heartbeat, heartbeat_tick, hh]

/-- Witness for C10 on a concrete state with sequence counter 5. -/
theorem stop_heartbeat_only_clears_handle_witness :
    (heartbeat_tick 0 true
      (start_heartbeat 7 1000
        (stop_heartbeat
          { initialTimeSyncState "srv" with
              heartbeat_handle := some 3, heartbeat_sequence := 5 }).1).1).2.sequence
      = 5 + 1 :=
  (stop_heartbeat_only_clears_handle 7 1000 0 true
    { initialTimeSyncState "srv" with heartbeat_handle := some 3, heartbeat_sequence := 5 }
    3 rfl).2.2.2.2.2.2

/-- C9: `validate_timestamp` rejects a timestamp exactly when the absolute
difference from the current clock strictly exceeds 3 600 000 ms, and accepts
exactly when the difference is at most 3 600 000 ms (so the 3 600 000 boundary
passes validation). -/
theorem validate_timestamp_boundary (now ts : Int) :
    (validate_timestamp now ts = Except.error (TimeSyncError.InvalidTimestamp ts)
      ↔ 3600000 < (now - ts).natAbs)
    ∧ (validate_timestamp now ts = Except.ok () ↔ (now - ts).natAbs ≤ 3600000) := by
  unfold validate_timestamp
  by_cases h : 3600000 < (now - ts).natAbs <;> (simp [h]; try omega)

/-- C5: given a client time that passes timestamp validation,
`handle_sync_request` fails with an invalid-sync-interval error exactly when
`sync_interval_ms` is outside the inclusive range [1000, 3600000]; in
particular it fails for 500 and 3600001 and the interval check passes for 1000
and 3600000. -/
theorem handle_sync_request_interval_check (nowValidate nowServer nowResp nowStats : Int)
    (sendOk : Bool) (frm : NodeId) (request_id : Uuid) (client_time : Int)
    (sync_interval_ms : Nat) (s : TimeSyncState)
    (hts : (nowValidate - client_time).natAbs ≤ 3600000) :
    (handle_sync_request nowValidate nowServer nowResp nowStats sendOk frm request_id
        client_time sync_interval_ms s).2
      = Except.error (TimeSyncError.InvalidSyncInterval sync_interval_ms)
    ↔ (sync_interval_ms < 1000 ∨ 3600000 < sync_interval_ms) := by
  have hv : validate_timestamp nowValidate client_time = Except.ok () := by
    simp [validate_timestamp]
    omega
  unfold handle_sync_request
  rw [hv]
  by_cases h : sync_interval_ms < 1000 ∨ 3600000 < sync_interval_ms
  · simp [h]
  · simp only [h, if_false, iff_false]
    cases sendOk <;> simp

/-- Witness for C5 at the four boundary inputs 500, 1000, 3600000 and 3600001. -/
theorem handle_sync_request_interval_check_witness :
    ((handle_sync_request 0 0 0 0 true "peer" 1 0 500 (initialTimeSyncState "srv")).2
      = Except.error (TimeSyncError.InvalidSyncInterval 500))
    ∧ ((handle_sync_request 0 0 0 0 true "peer" 1 0 3600001 (initialTimeSyncState "srv")).2
      = Except.error (TimeSyncError.InvalidSyncInterval 3600001))
    ∧ ¬((handle_sync_request 0 0 0 0 true "peer" 1 0 1000 (initialTimeSyncState "srv")).2
      = Except.error (TimeSyncError.InvalidSyncInterval 1000))
    ∧ ¬((handle_sync_request 0 0 0 0 true "peer" 1 0 3600000 (initialTimeSyncState "srv")).2
      = Except.error (TimeSyncError.InvalidSyncInterval 3600000)) :=
  ⟨(handle_sync_request_interval_check 0 0 0 0 true "peer" 1 0 500
      (initialTimeSyncState "srv") (by decide)).mpr (by decide),
   (handle_sync_request_interval_check 0 0 0 0 true "peer" 1 0 3600001
      (initialTimeSyncState "srv") (by decide)).mpr (by decide),
   fun hc => absurd ((handle_sync_request_interval_check 0 0 0 0 true "peer" 1 0 1000
      (initialTimeSyncState "srv") (by decide)).mp hc) (by decide),
   fun hc => absurd ((handle_sync_request_interval_check 0 0 0 0 true "peer" 1 0 3600000
      (initialTimeSyncState "srv") (by decide)).mp hc) (by decide)⟩

/-- C6: on a running service with a live network instance, `unicast` to a
target absent from the node registry fails with a node-not-found error and
issues no transport call; to a registered target it issues exactly one call,
whose transport-level outcome is the caller's outcome (success returns the
message id, failure surfaces as a send error). -/
theorem unicast_resolution (rpcOk : PeerId → Bool) (target : NodeId)
    (message : NetworkMessage) (s : AnemoState) (pid0 : PeerId)
    (hrun : s.is_running = true) (hnet : s.network = some pid0) :
    (mapLookup target s.global_nodes = none →
      unicast rpcOk target message s
        = { result := Except.error (NetworkError.NodeNotFound target), calls_made := 0 })
    ∧ (∀ pid, mapLookup target s.global_nodes = some pid →
        (unicast rpcOk target message s).calls_made = 1
        ∧ (rpcOk pid = true →
            (unicast rpcOk target message s).result = Except.ok message.id)
        ∧ (rpcOk pid = false →
            (unicast rpcOk target message s).result
              = Except.error (NetworkError.SendError "RPC调用失败"))) := by
  constructor
  · intro hl
    simp [unicast, hrun, node_id_to_peer_id, hl, hnet]
  · intro pid hl
    refine ⟨?_, ?_, ?_⟩
    · cases hrp : rpcOk pid <;>
        simp [unicast, hrun, node_id_to_peer_id, hl, hnet, hrp]
    · intro hrp
      simp [unicast, hrun, node_id_to_peer_id, hl, hnet, hrp]
    · intro hrp
      simp [unicast, hrun, node_id_to_peer_id, hl, hnet, hrp]

/-- Witness for C6 on the concrete running state: an unknown target and the
registered peer `peer-b`, under a transport oracle that succeeds. -/
theorem unicast_resolution_witness :
    unicast (fun _ => true) "nobody" sampleMsg runningState
      = { result := Except.error (NetworkError.NodeNotFound "nobody"), calls_made := 0 }
    ∧ (unicast (fun _ => true) "peer-b" sampleMsg runningState).calls_made = 1
    ∧ (unicast (fun _ => true) "peer-b" sampleMsg runningState).result
      = Except.ok sampleMsg.id :=
  ⟨(unicast_resolution (fun _ => true) "nobody" sampleMsg runningState 0
      (by decide) (by decide)).1 (by decide),
   ((unicast_resolution (fun _ => true) "peer-b" sampleMsg runningState 0
      (by decide) (by decide)).2 1 (by decide)).1,
   ((unicast_resolution (fun _ => true) "peer-b" sampleMsg runningState 0
      (by decide) (by decide)).2 1 (by decide)).2.1 rfl⟩

/-- C1 (code-bug evaluation): a fresh service handling one successful sync
request. The call succeeds, yet `total_requests` is incremented (the call
passes `request_processed = true`) while `total_responses` — the divisor of the
running-average formula — stays 0: the successful response does not increment
the response counter before it is used as the divisor, so the average is
computed as `(prev_avg * (0 - 1) + 10) / 0` (a division by zero in the Rust
`f64` arithmetic), not `(prev_avg * (n-1) + new) / n` with post-increment
`n = 1`. -/
theorem sync_stats_counter_divergence :
    (handle_sync_request 0 0 0 0 true "peer" 1 0 1000 (initialTimeSyncState "srv")).2
      = Except.ok [{ request_id := 1, server_time := 0, client_time := 0,
                     time_offset_ms := 0, round_trip_time_ms := 10 }]
    ∧ (handle_sync_request 0 0 0 0 true "peer" 1 0 1000
        (initialTimeSyncState "srv")).1.stats.total_requests = 1
    ∧ (handle_sync_request 0 0 0 0 true "peer" 1 0 1000
        (initialTimeSyncState "srv")).1.stats.total_responses = 0 := by
  decide

/-- C8: a valid time request with a fresh request id, whose response unicast
succeeds, replies with the request's own `request_id`, the echoed
`client_timestamp` and the measured processing time; afterwards the transient
in-flight entry is removed, restoring `pending_requests` to its prior state. -/
theorem handle_time_request_roundtrip (nowValidate nowSend nowStats : Int)
    (recvTick elapsed_ns : Nat) (frm : NodeId) (request_id : Uuid)
    (client_timestamp : Int) (s : TimeSyncState)
    (hts : (nowValidate - client_timestamp).natAbs ≤ 3600000)
    (hfresh : mapLookup request_id s.pending_requests = none) :
    (handle_time_request nowValidate nowSend nowStats recvTick elapsed_ns true frm
        request_id client_timestamp s).2
      = Except.ok [{ request_id := request_id, server_timestamp := nowSend,
                     client_timestamp := client_timestamp,
                     processing_time_ns := elapsed_ns }]
    ∧ (handle_time_request nowValidate nowSend nowStats recvTick elapsed_ns true frm
        request_id client_timestamp s).1.pending_requests = s.pending_requests := by
  have hv : validate_timestamp nowValidate client_timestamp = Except.ok () := by
    simp [validate_timestamp]
    omega
  unfold handle_time_request
  rw [hv]
  constructor
  · simp
  · simp [mapRemove_mapInsert_of_none request_id _ s.pending_requests hfresh]

/-- Witness for C8 on a concrete fresh service. -/
theorem handle_time_request_roundtrip_witness :
    (handle_time_request 5 6 7 0 9 true "peer" 1 5 (initialTimeSyncState "srv")).2
      = Except.ok [{ request_id := 1, server_timestamp := 6, client_timestamp := 5,
                     processing_time_ns := 9 }]
    ∧ (handle_time_request 5 6 7 0 9 true "peer" 1 5
        (initialTimeSyncState "srv")).1.pending_requests = [] :=
  ⟨(handle_time_request_roundtrip 5 6 7 0 9 "peer" 1 5 (initialTimeSyncState "srv")
      (by decide) (by decide)).1,
   (handle_time_request_roundtrip 5 6 7 0 9 "peer" 1 5 (initialTimeSyncState "srv")
      (by decide) (by decide)).2⟩

theorem hsr_step_new (nv ns nr nu : Int) (frm : NodeId) (rid : Uuid) (ct : Int)
    (iv : Nat) (s : TimeSyncState)
    (hts : (nv - ct).natAbs ≤ 3600000) (hiv : ¬(iv < 1000 ∨ 3600000 < iv))
    (hl : mapLookup frm s.sync_sessions = none) :
    (handle_sync_request nv ns nr nu true frm rid ct iv s).2
      = Except.ok [{ request_id := rid, server_time := nr, client_time := ct,
                     time_offset_ms := ns - ct, round_trip_time_ms := 10 }]
    ∧ (handle_sync_request nv ns nr nu true frm rid ct iv s).1.sync_sessions
      = mapInsert frm
          { node_id := frm, last_sync_time := ns, time_offset_ms := ns - ct,
            sync_interval_ms := iv, request_count := 1 } s.sync_sessions := by
  have hv : validate_timestamp nv ct = Except.ok () := by
    simp [validate_timestamp]
    omega
  unfold handle_sync_request
  rw [hv]
  simp [hiv, hl, calculate_time_diff_ms]

theorem hsr_step_existing (nv ns nr nu : Int) (frm : NodeId) (rid : Uuid) (ct : Int)
    (iv : Nat) (s : TimeSyncState) (sess0 : SyncSession)
    (hts : (nv - ct).natAbs ≤ 3600000) (hiv : ¬(iv < 1000 ∨ 3600000 < iv))
    (hl : mapLookup frm s.sync_sessions = some sess0) :
    (handle_sync_request nv ns nr nu true frm rid ct iv s).2
      = Except.ok [{ request_id := rid, server_time := nr, client_time := ct,
                     time_offset_ms := ns - ct, round_trip_time_ms := 10 }]
    ∧ (handle_sync_request nv ns nr nu true frm rid ct iv s).1.sync_sessions
      = mapInsert frm
          { node_id := sess0.node_id, last_sync_time := ns, time_offset_ms := ns - ct,
            sync_interval_ms := iv, request_count := sess0.request_count + 1 }
          s.sync_sessions := by
  have hv : validate_timestamp nv ct = Except.ok () := by
    simp [validate_timestamp]
    omega
  unfold handle_sync_request
  rw [hv]
  simp [hiv, hl, calculate_time_diff_ms]

/-- C4: two sequential successful sync requests from the same peer: both calls
succeed and reply with offset `server_time - client_time`; after the first call
the peer's session has `request_count = 1`, after the second it has
`request_count = 2` with `last_sync_time`, `time_offset_ms` and
`sync_interval_ms` overwritten by the latest request; throughout, the sessions
map holds exactly one entry for that peer. -/
theorem sync_session_two_sequential_requests
    (nv1 ns1 nr1 nu1 nv2 ns2 nr2 nu2 ct1 ct2 : Int) (iv1 iv2 : Nat)
    (frm : NodeId) (rid1 rid2 : Uuid) (s : TimeSyncState)
    (hfresh : mapLookup frm s.sync_sessions = none)
    (hts1 : (nv1 - ct1).natAbs ≤ 3600000) (hiv1 : 1000 ≤ iv1 ∧ iv1 ≤ 3600000)
    (hts2 : (nv2 - ct2).natAbs ≤ 3600000) (hiv2 : 1000 ≤ iv2 ∧ iv2 ≤ 3600000) :
    (handle_sync_request nv1 ns1 nr1 nu1 true frm rid1 ct1 iv1 s).2
      = Except.ok [{ request_id := rid1, server_time := nr1, client_time := ct1,
                     time_offset_ms := ns1 - ct1, round_trip_time_ms := 10 }]
    ∧ mapLookup frm
        ((handle_sync_request nv1 ns1 nr1 nu1 true frm rid1 ct1 iv1 s).1).sync_sessions
      = some { node_id := frm, last_sync_time := ns1, time_offset_ms := ns1 - ct1,
               sync_interval_ms := iv1, request_count := 1 }
    ∧ keyCount frm
        ((handle_sync_request nv1 ns1 nr1 nu1 true frm rid1 ct1 iv1 s).1).sync_sessions = 1
    ∧ (handle_sync_request nv2 ns2 nr2 nu2 true frm rid2 ct2 iv2
        (handle_sync_request nv1 ns1 nr1 nu1 true frm rid1 ct1 iv1 s).1).2
      = Except.ok [{ request_id := rid2, server_time := nr2, client_time := ct2,
                     time_offset_ms := ns2 - ct2, round_trip_time_ms := 10 }]
    ∧ mapLookup frm
        ((handle_sync_request nv2 ns2 nr2 nu2 true frm rid2 ct2 iv2
          (handle_sync_request nv1 ns1 nr1 nu1 true frm rid1 ct1 iv1 s).1).1).sync_sessions
      = some { node_id := frm, last_sync_time := ns2, time_offset_ms := ns2 - ct2,
               sync_interval_ms := iv2, request_count := 2 }
    ∧ keyCount frm
        ((handle_sync_request nv2 ns2 nr2 nu2 true frm rid2 ct2 iv2
          (handle_sync_request nv1 ns1 nr1 nu1 true frm rid1 ct1 iv1 s).1).1).sync_sessions
      = 1 := by
  have hiv1n : ¬(iv1 < 1000 ∨ 3600000 < iv1) := by omega
  have hiv2n : ¬(iv2 < 1000 ∨ 3600000 < iv2) := by omega
  obtain ⟨h1r, h1s⟩ := hsr_step_new nv1 ns1 nr1 nu1 frm rid1 ct1 iv1 s hts1 hiv1n hfresh
  have hl1 : mapLookup frm
      ((handle_sync_request nv1 ns1 nr1 nu1 true frm rid1 ct1 iv1 s).1).sync_sessions
      = some { node_id := frm, last_sync_time := ns1, time_offset_ms := ns1 - ct1,
               sync_interval_ms := iv1, request_count := 1 } := by
    rw [h1s]
    exact mapLookup_mapInsert_self frm _ s.sync_sessions
  have hc1 : keyCount frm
      ((handle_sync_request nv1 ns1 nr1 nu1 true frm rid1 ct1 iv1 s).1).sync_sessions = 1 := by
    rw [h1s]
    exact keyCount_mapInsert_of_none frm _ s.sync_sessions hfresh
  obtain ⟨h2r, h2s⟩ := hsr_step_existing nv2 ns2 nr2 nu2 frm rid2 ct2 iv2 _ _ hts2 hiv2n hl1
  have hl2 : mapLookup frm
      ((handle_sync_request nv2 ns2 nr2 nu2 true frm rid2 ct2 iv2
        (handle_sync_request nv1 ns1 nr1 nu1 true frm rid1 ct1 iv1 s).1).1).sync_sessions
      = some { node_id := frm, last_sync_time := ns2, time_offset_ms := ns2 - ct2,
               sync_interval_ms := iv2, request_count := 2 } := by
    rw [h2s]
    exact mapLookup_mapInsert_self frm _ _
  have hc2 : keyCount frm
      ((handle_sync_request nv2 ns2 nr2 nu2 true frm rid2 ct2 iv2
        (handle_sync_request nv1 ns1 nr1 nu1 true frm rid1 ct1 iv1 s).1).1).sync_sessions
      = 1 := by
    rw [h2s, keyCount_mapInsert_of_some frm _ _ _ hl1]
    exact hc1
  exact ⟨h1r, hl1, hc1, h2r, hl2, hc2⟩

/-- Witness for C4: two concrete sync requests from peer `"peer"` on a fresh
service. -/
theorem sync_session_two_sequential_requests_witness :
    mapLookup "peer"
        ((handle_sync_request 20 20 20 20 true "peer" 2 15 2000
          (handle_sync_request 10 10 10 10 true "peer" 1 8 1000
            (initialTimeSyncState "srv")).1).1).sync_sessions
      = some { node_id := "peer", last_sync_time := 20, time_offset_ms := 5,
               sync_interval_ms := 2000, request_count := 2 }
    ∧ keyCount "peer"
        ((handle_sync_request 20 20 20 20 true "peer" 2 15 2000
          (handle_sync_request 10 10 10 10 true "peer" 1 8 1000
            (initialTimeSyncState "srv")).1).1).sync_sessions = 1 :=
  ⟨(sync_session_two_sequential_requests 10 10 10 10 20 20 20 20 8 15 1000 2000
      "peer" 1 2 (initialTimeSyncState "srv") (by decide) (by decide)
      (by decide) (by decide) (by decide)).2.2.2.2.1,
   (sync_session_two_sequential_requests 10 10 10 10 20 20 20 20 8 15 1000 2000
      "peer" 1 2 (initialTimeSyncState "srv") (by decide) (by decide)
      (by decide) (by decide) (by decide)).2.2.2.2.2⟩

/-- C2 (counterexample): with a registry holding the local node plus N = 1 peer
and an empty exclude set (k = 0), the broadcast loop attempts one outbound
call, exceeding the claimed bound N − 1 − k = 0. -/
theorem broadcast_attempt_bound_counterexample :
    (broadcast (fun _ => true) sampleMsg [] runningState).attempted = ["peer-b"]
    ∧ ¬((broadcast (fun _ => true) sampleMsg [] runningState).attempted.length
        ≤ runningState.global_nodes.length - 1 - 1 - ([] : List NodeId).length) := by
  decide

/-- C2 (amended): on a running service whose registry holds the local node `l`
plus N distinct peers, with a duplicate-free exclude set of k peers not
containing `l`, the broadcast succeeds with the message's own id and attempts
exactly N − k outbound calls (so at most N − k, not N − 1 − k: the local entry
is the only registry entry skipped beyond the k excluded peers). Here
`s.global_nodes.length = N + 1`. -/
theorem broadcast_attempt_count (rpcOk : NodeId → Bool) (message : NetworkMessage)
    (exclude_nodes : List NodeId) (s : AnemoState) (l : NodeId) (pid0 : PeerId)
    (hrun : s.is_running = true) (hnet : s.network = some pid0)
    (hloc : s.local_node_id = some l)
    (hnodup : (s.global_nodes.map Prod.fst).Nodup)
    (hlmem : l ∈ s.global_nodes.map Prod.fst)
    (hexnodup : exclude_nodes.Nodup)
    (hexsub : ∀ x ∈ exclude_nodes, x ∈ s.global_nodes.map Prod.fst)
    (hexloc : l ∉ exclude_nodes) :
    (broadcast rpcOk message exclude_nodes s).result = Except.ok message.id
    ∧ (broadcast rpcOk message exclude_nodes s).attempted.length
      = s.global_nodes.length - 1 - exclude_nodes.length := by
  have hwnodup : (l :: exclude_nodes).Nodup := List.nodup_cons.mpr ⟨hexloc, hexnodup⟩
  have hsubw : ∀ x ∈ l :: exclude_nodes, x ∈ s.global_nodes.map Prod.fst := by
    intro x hx
    rcases List.mem_cons.mp hx with h | h
    · exact h ▸ hlmem
    · exact hexsub x h
  have hcount := length_filter_mem_of_nodup s.global_nodes (l :: exclude_nodes)
    hnodup hwnodup hsubw
  have hsplit := length_filter_add_length_filter_not
    (fun p : NodeId × PeerId => decide (p.1 ∈ l :: exclude_nodes)) s.global_nodes
  have htargets : broadcastTargets s.global_nodes s.local_node_id exclude_nodes
      = s.global_nodes.filter
          (fun p => !(decide (p.1 ∈ l :: exclude_nodes))) := by
    unfold broadcastTargets
    rw [hloc]
    apply List.filter_congr
    intro p _
    rw [broadcastSkips_some_eq]
  constructor
  · simp [broadcast, hrun, hnet]
  · simp only [broadcast, hrun, Bool.true_eq_false, if_false, hnet, htargets,
      List.length_map]
    simp only [List.length_cons] at hcount
    omega

/-- Witness for C2 (amended) on the concrete running state (N = 1 peer, k = 0):
one attempted call. -/
theorem broadcast_attempt_count_witness :
    (broadcast (fun _ => true) sampleMsg [] runningState).result
      = Except.ok sampleMsg.id
    ∧ (broadcast (fun _ => true) sampleMsg [] runningState).attempted.length
      = runningState.global_nodes.length - 1 - ([] : List NodeId).length :=
  ⟨(broadcast_attempt_count (fun _ => true) sampleMsg [] runningState "srv:1" 0
      (by decide) (by decide) (by decide) (by decide) (by decide) (by decide)
      (by decide) (by decide)).1,
   (broadcast_attempt_count (fun _ => true) sampleMsg [] runningState "srv:1" 0
      (by decide) (by decide) (by decide) (by decide) (by decide) (by decide)
      (by decide) (by decide)).2⟩

end AnemoSample
